import Mathlib

/-!
Verification of the jupyter-desktop repository's two logic units:
the Google Drive download proxy handler (`src/backend/google_drive_handler.py`)
and the kabu station API token client
(`src/backend/.ipython/profile_default/startup/api/lib/kabusap.py`).
Each Python function is shallowly embedded as an executable Lean definition;
outbound HTTP traffic is abstracted as an oracle argument, and the embedding
records the ordered list of outbound requests and the log lines emitted.
-/

/-- Lowercasing of a string, character by character, mirroring Python
`str.lower()` on the ASCII content-type strings the handler inspects. -/
def strLower (s : String) : String :=
  ⟨s.data.map Char.toLower⟩

/-- Boolean test that `p` is an initial segment of `l`. -/
def listStartsWith : List Char → List Char → Bool
  | [], _ => true
  | _ :: _, [] => false
  | a :: as, b :: bs => a == b && listStartsWith as bs

/-- Boolean test that `pat` occurs contiguously somewhere inside `l`,
mirroring Python's `pat in l` membership test on strings. -/
def listHasSeg (pat : List Char) : List Char → Bool
  | [] => listStartsWith pat []
  | c :: rest => listStartsWith pat (c :: rest) || listHasSeg pat rest

/-- Substring containment on strings: Python's `pat in s`. -/
def containsSub (s pat : String) : Bool :=
  listHasSeg pat.data s.data

namespace GoogleDrive

/-- An upstream HTTP response as the handler sees it: the optional
`Content-Type` header (`response.headers.get('Content-Type')`) and the body
text (`response.text`). -/
structure HttpResponse where
  contentType : Option String
  body : String
deriving DecidableEq

/-- Outcome of one `requests.get(url, ...)` call followed by
`response.raise_for_status()`:
a 2xx response, a `requests.exceptions.Timeout`, any other
`requests.exceptions.RequestException` (this includes the HTTPError raised by
`raise_for_status` on a non-2xx upstream status), or any other unexpected
Python exception carrying its message and formatted traceback. -/
inductive FetchOutcome where
  | ok (r : HttpResponse)
  | timeout
  | requestError (msg : String)
  | otherError (msg : String) (tb : String)
deriving DecidableEq

/-- Result of one invocation of the handler's `get`: either a successful
response (the `Content-Type` header set by `set_header` and the body passed to
`self.write`), or a `tornado.web.HTTPError` with its status and reason. -/
inductive HandlerResult where
  | success (contentType : String) (body : String)
  | httpError (status : Nat) (reason : String)
deriving DecidableEq

/-- Full observable behaviour of one invocation of the handler's `get`:
the result, the ordered list of outbound request URLs issued via
`requests.get`, and the lines printed to stderr. -/
structure HandlerOutput where
  result : HandlerResult
  requests : List String
  logs : List String
deriving DecidableEq

/-- Download URL built by the handler for a file id:
`f"https://drive.google.com/uc?export=download&id={file_id}"`. -/
def downloadUrl (fileId : String) : String :=
  "https://drive.google.com/uc?export=download&id=" ++ fileId

/-- Retry URL with the confirmation query parameter:
`f"https://drive.google.com/uc?export=download&id={file_id}&confirm=t"`. -/
def confirmUrl (fileId : String) : String :=
  "https://drive.google.com/uc?export=download&id=" ++ fileId ++ "&confirm=t"

/-- The warning-page check performed on each response:
`'text/html' in response.headers.get('Content-Type', '').lower()`. -/
def isHtml (contentType : Option String) : Bool :=
  containsSub (strLower (contentType.getD "")) "text/html"

/-- Stderr lines printed by the unexpected-exception branch of `get`. -/
def unexpectedLogs (msg tb : String) : List String :=
  ["[Google Drive Handler] 予期しないエラー: " ++ msg,
   "[Google Drive Handler] トレースバック: " ++ tb]

/-- Shallow embedding of `GoogleDriveDownloadHandler.get`. The argument
`fileId` is `self.get_argument('file_id', None)` (`none` when the query
parameter is absent) and `net` maps each URL passed to `requests.get` to the
outcome of that call. Python's `if not file_id` is true exactly when the
argument is `None` or the empty string. -/
def handlerGet (fileId : Option String) (net : String → FetchOutcome) :
    HandlerOutput :=
  if fileId.getD "" = "" then
    { result := .httpError 400 "file_id parameter is required",
      requests := [], logs := [] }
  else
    let fid := fileId.getD ""
    let url1 := downloadUrl fid
    match net url1 with
    | .timeout =>
        { result := .httpError 504 "Request timeout: File download took too long",
          requests := [url1], logs := [] }
    | .requestError msg =>
        { result := .httpError 500 ("Failed to download file: " ++ msg),
          requests := [url1], logs := [] }
    | .otherError msg tb =>
        { result := .httpError 500 ("Internal server error: " ++ msg),
          requests := [url1], logs := unexpectedLogs msg tb }
    | .ok r1 =>
      if isHtml r1.contentType then
        let url2 := confirmUrl fid
        match net url2 with
        | .timeout =>
            { result := .httpError 504 "Request timeout: File download took too long",
              requests := [url1, url2], logs := [] }
        | .requestError msg =>
            { result := .httpError 500 ("Failed to download file: " ++ msg),
              requests := [url1, url2], logs := [] }
        | .otherError msg tb =>
            { result := .httpError 500 ("Internal server error: " ++ msg),
              requests := [url1, url2], logs := unexpectedLogs msg tb }
        | .ok r2 =>
          if isHtml r2.contentType then
            { result := .httpError 500 "Failed to download file: Warning page could not be bypassed",
              requests := [url1, url2], logs := [] }
          else
            { result := .success "application/json" r2.body,
              requests := [url1, url2], logs := [] }
      else
        { result := .success "application/json" r1.body,
          requests := [url1], logs := [] }

end GoogleDrive

namespace Kabusap

/-- Mutable fields of the `kabusap` singleton relevant to the claims:
`self.api_key`, `self.headers` (a dict, embedded as an association list) and
`self.isEnable`. -/
structure KabusapState where
  api_key : String
  headers : List (String × String)
  isEnable : Bool
deriving DecidableEq

/-- State right after `__init__` assigns `self.api_key = ""` and
`self.headers = \x7b\x7d`, before `_set_token` runs. -/
def initialState : KabusapState :=
  { api_key := "", headers := [], isEnable := false }

/-- Result of a Python call: normal return or a propagated exception. -/
inductive PyResult (α : Type) where
  | ok (a : α)
  | exc (msg : String)
deriving DecidableEq

/-- Outcome of the single `urllib.request.urlopen` call in `_set_token`.
A response body is embedded as `Option (List (String × String))`: `some obj`
when `json.loads` of the raw bytes yields the JSON object `obj`, and `none`
when `json.loads` raises because the bytes are not valid JSON.
`success` is a 2xx response, `httpError` is the `urllib.error.HTTPError`
raised for a non-2xx status (carrying the error body read by `e.read()`),
and `otherError` is any other exception (for example `urllib.error.URLError`
on a network failure). -/
inductive UrlopenOutcome where
  | success (content : Option (List (String × String)))
  | httpError (code : Nat) (errBody : Option (List (String × String)))
  | otherError (msg : String)
deriving DecidableEq

/-- Observable behaviour of one call to `_set_token`: the returned boolean
together with the updated state (or a propagated exception), the number of
outbound requests issued, and the logger lines emitted. -/
structure SetTokenOutcome where
  result : PyResult (KabusapState × Bool)
  requests : Nat
  logs : List String
deriving DecidableEq

/-- Shallow embedding of `kabusap._set_token`. The argument `env` is
`os.getenv('KABUSAP_API_PASSWORD')` and `net` is the outcome of the one
`urlopen` POST to the token endpoint. Python's `if not api_password` is true
exactly when the variable is unset or empty. The `except urllib.error.HTTPError`
handler first runs `json.loads(e.read().decode('utf-8'))`; when the error body
is not valid JSON that call raises, and an exception raised inside an `except`
block is not caught by the later `except Exception` clause of the same `try`,
so it propagates to the caller. -/
def set_token (env : Option String) (net : UrlopenOutcome)
    (s : KabusapState) : SetTokenOutcome :=
  if env.getD "" = "" then
    { result := .ok (s, false), requests := 0,
      logs := ["kabuステーションAPIの認証情報（KABUSAP_API_PASSWORD）が設定されていません。"] }
  else
    match net with
    | .success (some content) =>
      match content.lookup "Token" with
      | some tok =>
          { result := .ok ({ s with api_key := tok }, true), requests := 1,
            logs := ["API使用の準備が完了しました。"] }
      | none =>
          { result := .ok (s, false), requests := 1,
            logs := ["トークンの取得に失敗しました。レスポンス: ..."] }
    | .success none =>
        { result := .ok (s, false), requests := 1,
          logs := ["トークンの取得に失敗しました: JSONDecodeError"] }
    | .httpError code (some _errContent) =>
        { result := .ok (s, false), requests := 1,
          logs := ["HTTPエラー: " ++ toString code ++ " - ..."] }
    | .httpError _ none =>
        { result := .exc "json.decoder.JSONDecodeError", requests := 1,
          logs := [] }
    | .otherError msg =>
        { result := .ok (s, false), requests := 1,
          logs := ["トークンの取得に失敗しました: " ++ msg] }

/-- Shallow embedding of the first-time body of `kabusap.__init__`: assign the
initial fields, set `self.isEnable = self._set_token()`, and when enabled
install the headers dict `Content-Type: application/json, X-API-KEY: api_key`.
An exception propagating out of `_set_token` propagates out of `__init__`. -/
def kabusap_init (env : Option String) (net : UrlopenOutcome) :
    PyResult KabusapState × Nat :=
  let r := set_token env net initialState
  match r.result with
  | .exc m => (.exc m, r.requests)
  | .ok (s1, b) =>
    let s2 := { s1 with isEnable := b }
    let s3 := if b then
        { s2 with headers :=
            [("Content-Type", "application/json"), ("X-API-KEY", s2.api_key)] }
      else s2
    (.ok s3, r.requests)

/-- Shallow embedding of `kabusap._refresh_token_if_needed`: when
`self.api_key` is empty, log and re-invoke `_set_token`; otherwise return
`True` immediately without touching any state or issuing any request. -/
def refresh_token_if_needed (env : Option String) (net : UrlopenOutcome)
    (s : KabusapState) : SetTokenOutcome :=
  if s.api_key = "" then
    let r := set_token env net s
    { r with logs := "トークンが無効のため、再取得します。" :: r.logs }
  else
    { result := .ok (s, true), requests := 0, logs := [] }

end Kabusap

namespace GoogleDrive

/-- Sample network oracle: the first download URL for file id `FILE1` answers
with an HTML warning page and the confirmation URL answers with JSON. -/
def netHtmlThenJson : String → FetchOutcome := fun url =>
  if url = confirmUrl "FILE1" then
    .ok { contentType := some "application/json", body := "payload" }
  else
    .ok { contentType := some "text/html; charset=utf-8", body := "warning page" }

/-- Sample network oracle answering every request with an HTML page. -/
def netAllHtml : String → FetchOutcome := fun _ =>
  .ok { contentType := some "text/html; charset=utf-8", body := "warning page" }

/-- Sample network oracle timing out on every request. -/
def netTimeout : String → FetchOutcome := fun _ => .timeout

/-- Sample network oracle answering every request with a JSON body. -/
def netJson : String → FetchOutcome := fun _ =>
  .ok { contentType := some "application/json", body := "payload" }

/-- Sample network oracle answering with a response carrying no
`Content-Type` header at all. -/
def netNoContentType : String → FetchOutcome := fun _ =>
  .ok { contentType := none, body := "payload" }

end GoogleDrive

namespace GoogleDrive

/-- C1: when the first GET for a nonempty file id returns an HTML response,
`get` issues exactly one retry, to the same download URL with `&confirm=t`
appended, so exactly two outbound requests are made whatever the retry
returns; and when the retried response is not HTML its body is returned. -/
theorem drive_html_retry_once (fid : String) (net : String → FetchOutcome)
    (r1 : HttpResponse) (hfid : fid ≠ "")
    (h1 : net (downloadUrl fid) = .ok r1)
    (hh1 : isHtml r1.contentType = true) :
    confirmUrl fid = downloadUrl fid ++ "&confirm=t" ∧
    (handlerGet (some fid) net).requests = [downloadUrl fid, confirmUrl fid] ∧
    (∀ r2, net (confirmUrl fid) = .ok r2 → isHtml r2.contentType = false →
      (handlerGet (some fid) net).result = .success "application/json" r2.body) := by
  refine ⟨rfl, ?_, ?_⟩
  · cases h2 : net (confirmUrl fid) with
    | ok r2 =>
        by_cases hh2 : isHtml r2.contentType <;>
          simp [handlerGet, hfid, h1, hh1, h2, hh2]
    | timeout => simp [handlerGet, hfid, h1, hh1, h2]
    | requestError msg => simp [handlerGet, hfid, h1, hh1, h2]
    | otherError msg tb => simp [handlerGet, hfid, h1, hh1, h2]
  · intro r2 h2 hh2
    simp [handlerGet, hfid, h1, hh1, h2, hh2]

/-- Witness for C1 at the concrete file id `FILE1` and the oracle
`netHtmlThenJson`. -/
theorem drive_html_retry_once_witness :
    (handlerGet (some "FILE1") netHtmlThenJson).requests =
      [downloadUrl "FILE1", confirmUrl "FILE1"] ∧
    (handlerGet (some "FILE1") netHtmlThenJson).result =
      .success "application/json" "payload" := by
  have h := drive_html_retry_once "FILE1" netHtmlThenJson
      { contentType := some "text/html; charset=utf-8", body := "warning page" }
      (by decide) (by decide) (by decide)
  exact ⟨h.2.1, h.2.2 { contentType := some "application/json", body := "payload" }
      (by decide) (by decide)⟩

/-- C2: when both the first response and the confirmation retry are HTML,
`get` raises HTTP 500 with the warning-page reason, makes exactly the two
outbound requests, and writes no body. -/
theorem drive_double_html_error (fid : String) (net : String → FetchOutcome)
    (r1 r2 : HttpResponse) (hfid : fid ≠ "")
    (h1 : net (downloadUrl fid) = .ok r1) (hh1 : isHtml r1.contentType = true)
    (h2 : net (confirmUrl fid) = .ok r2) (hh2 : isHtml r2.contentType = true) :
    handlerGet (some fid) net =
      { result := .httpError 500
          "Failed to download file: Warning page could not be bypassed",
        requests := [downloadUrl fid, confirmUrl fid], logs := [] } ∧
    ∀ ct b, (handlerGet (some fid) net).result ≠ .success ct b := by
  have h : handlerGet (some fid) net =
      { result := .httpError 500
          "Failed to download file: Warning page could not be bypassed",
        requests := [downloadUrl fid, confirmUrl fid], logs := [] } := by
    simp [handlerGet, hfid, h1, hh1, h2, hh2]
  exact ⟨h, fun ct b hc => by rw [h] at hc; exact HandlerResult.noConfusion hc⟩

/-- Witness for C2 at the concrete file id `FILE1` and the oracle
`netAllHtml`. -/
theorem drive_double_html_error_witness :
    handlerGet (some "FILE1") netAllHtml =
      { result := .httpError 500
          "Failed to download file: Warning page could not be bypassed",
        requests := [downloadUrl "FILE1", confirmUrl "FILE1"], logs := [] } :=
  (drive_double_html_error "FILE1" netAllHtml
      { contentType := some "text/html; charset=utf-8", body := "warning page" }
      { contentType := some "text/html; charset=utf-8", body := "warning page" }
      (by decide) (by decide) (by decide) (by decide) (by decide)).1

/-- C3: when the `file_id` query parameter is absent or empty, `get` raises
HTTP 400 and no outbound request is made. -/
theorem drive_missing_file_id (fileId : Option String)
    (h : fileId = none ∨ fileId = some "") (net : String → FetchOutcome) :
    handlerGet fileId net =
      { result := .httpError 400 "file_id parameter is required",
        requests := [], logs := [] } := by
  rcases h with rfl | rfl <;> rfl

/-- Witness for C3 with the parameter absent and the oracle `netJson`. -/
theorem drive_missing_file_id_witness :
    handlerGet none netJson =
      { result := .httpError 400 "file_id parameter is required",
        requests := [], logs := [] } :=
  drive_missing_file_id none (Or.inl rfl) netJson

/-- C4: a timeout on either outbound call maps to HTTP 504, any other
request-level failure (including `raise_for_status` on a non-2xx upstream
status) maps to HTTP 500 with the download-failure reason, and any other
unexpected exception maps to HTTP 500 with the internal-error reason and is
logged together with its full traceback. -/
theorem drive_error_mapping (fid : String) (net : String → FetchOutcome)
    (hfid : fid ≠ "") :
    (net (downloadUrl fid) = .timeout →
      handlerGet (some fid) net =
        { result := .httpError 504 "Request timeout: File download took too long",
          requests := [downloadUrl fid], logs := [] }) ∧
    (∀ msg, net (downloadUrl fid) = .requestError msg →
      handlerGet (some fid) net =
        { result := .httpError 500 ("Failed to download file: " ++ msg),
          requests := [downloadUrl fid], logs := [] }) ∧
    (∀ msg tb, net (downloadUrl fid) = .otherError msg tb →
      handlerGet (some fid) net =
        { result := .httpError 500 ("Internal server error: " ++ msg),
          requests := [downloadUrl fid], logs := unexpectedLogs msg tb }) ∧
    (∀ r1, net (downloadUrl fid) = .ok r1 → isHtml r1.contentType = true →
      (net (confirmUrl fid) = .timeout →
        (handlerGet (some fid) net).result =
          .httpError 504 "Request timeout: File download took too long") ∧
      (∀ msg, net (confirmUrl fid) = .requestError msg →
        (handlerGet (some fid) net).result =
          .httpError 500 ("Failed to download file: " ++ msg)) ∧
      (∀ msg tb, net (confirmUrl fid) = .otherError msg tb →
        (handlerGet (some fid) net).result =
          .httpError 500 ("Internal server error: " ++ msg) ∧
        (handlerGet (some fid) net).logs = unexpectedLogs msg tb)) := by
  refine ⟨?_, ?_, ?_, ?_⟩
  · intro h1; simp [handlerGet, hfid, h1]
  · intro msg h1; simp [handlerGet, hfid, h1]
  · intro msg tb h1; simp [handlerGet, hfid, h1]
  · intro r1 h1 hh1
    refine ⟨?_, ?_, ?_⟩
    · intro h2; simp [handlerGet, hfid, h1, hh1, h2]
    · intro msg h2; simp [handlerGet, hfid, h1, hh1, h2]
    · intro msg tb h2; simp [handlerGet, hfid, h1, hh1, h2]

/-- Witness for C4 at the concrete file id `FILE1` and the everywhere
timing-out oracle `netTimeout`. -/
theorem drive_error_mapping_witness :
    handlerGet (some "FILE1") netTimeout =
      { result := .httpError 504 "Request timeout: File download took too long",
        requests := [downloadUrl "FILE1"], logs := [] } :=
  (drive_error_mapping "FILE1" netTimeout (by decide)).1 rfl

/-- C9: whenever `get` succeeds, the `Content-Type` response header is set to
`application/json` regardless of the payload, and the body written is
verbatim the body of the response to the last outbound request, which was not
HTML. -/
theorem drive_success_shape (fileId : Option String)
    (net : String → FetchOutcome) (ct body : String)
    (h : (handlerGet fileId net).result = .success ct body) :
    ct = "application/json" ∧
    ∃ r : HttpResponse,
      net ((handlerGet fileId net).requests.getLastD "") = .ok r ∧
      body = r.body ∧ isHtml r.contentType = false := by
  by_cases hfid : fileId.getD "" = ""
  · simp [handlerGet, hfid] at h
  · cases h1 : net (downloadUrl (fileId.getD "")) with
    | ok r1 =>
      by_cases hh1 : isHtml r1.contentType
      · cases h2 : net (confirmUrl (fileId.getD "")) with
        | ok r2 =>
          by_cases hh2 : isHtml r2.contentType
          · simp [handlerGet, hfid, h1, hh1, h2, hh2] at h
          · have hG : handlerGet fileId net =
                { result := .success "application/json" r2.body,
                  requests := [downloadUrl (fileId.getD ""),
                               confirmUrl (fileId.getD "")],
                  logs := [] } := by
              simp [handlerGet, hfid, h1, hh1, h2, hh2]
            rw [hG] at h ⊢
            injection h with hct hbody
            exact ⟨hct.symm, r2, by simpa using h2, hbody.symm,
              by simpa using hh2⟩
        | timeout => simp [handlerGet, hfid, h1, hh1, h2] at h
        | requestError msg => simp [handlerGet, hfid, h1, hh1, h2] at h
        | otherError msg tb => simp [handlerGet, hfid, h1, hh1, h2] at h
      · have hG : handlerGet fileId net =
            { result := .success "application/json" r1.body,
              requests := [downloadUrl (fileId.getD "")], logs := [] } := by
          simp [handlerGet, hfid, h1, hh1]
        rw [hG] at h ⊢
        injection h with hct hbody
        exact ⟨hct.symm, r1, by simpa using h1, hbody.symm,
          by simpa using hh1⟩
    | timeout => simp [handlerGet, hfid, h1] at h
    | requestError msg => simp [handlerGet, hfid, h1] at h
    | otherError msg tb => simp [handlerGet, hfid, h1] at h

/-- Witness for C9 at the concrete file id `FILE1` and the oracle `netJson`. -/
theorem drive_success_shape_witness :
    "application/json" = "application/json" ∧
    ∃ r : HttpResponse,
      netJson ((handlerGet (some "FILE1") netJson).requests.getLastD "") = .ok r ∧
      "payload" = r.body ∧ isHtml r.contentType = false :=
  drive_success_shape (some "FILE1") netJson "application/json" "payload" (by decide)

/-- C10: a response with no `Content-Type` header is treated as non-HTML
(the check lowercases the defaulted empty string), so its body is returned
without any confirmation retry; moreover the HTML check is exactly a
case-insensitive substring test for `text/html` anywhere in the header
value. -/
theorem drive_no_content_type_header (fid : String)
    (net : String → FetchOutcome) (r : HttpResponse) (hfid : fid ≠ "")
    (h1 : net (downloadUrl fid) = .ok r) (hct : r.contentType = none) :
    isHtml r.contentType = false ∧
    handlerGet (some fid) net =
      { result := .success "application/json" r.body,
        requests := [downloadUrl fid], logs := [] } ∧
    (∀ s, isHtml (some s) = containsSub (strLower s) "text/html") ∧
    isHtml (some "TexT/HTml; charset=utf-8") = true ∧
    isHtml (some "application/json") = false := by
  have hh : isHtml r.contentType = false := by rw [hct]; decide
  exact ⟨hh, by simp [handlerGet, hfid, h1, hh], fun s => rfl, by decide, by decide⟩

/-- Witness for C10 at the concrete file id `FILE1` and the oracle
`netNoContentType`. -/
theorem drive_no_content_type_header_witness :
    handlerGet (some "FILE1") netNoContentType =
      { result := .success "application/json" "payload",
        requests := [downloadUrl "FILE1"], logs := [] } :=
  (drive_no_content_type_header "FILE1" netNoContentType
      { contentType := none, body := "payload" }
      (by decide) (by decide) rfl).2.1

end GoogleDrive

namespace Kabusap

/-- C5: when `KABUSAP_API_PASSWORD` is absent or empty, construction leaves
`isEnable` false, the token empty and the headers empty without any outbound
request, and every later `_set_token` call under the same environment returns
`False` without any outbound request, leaving the state unchanged. -/
theorem kabusap_no_credential (env : Option String)
    (h : env = none ∨ env = some "") :
    (∀ net, kabusap_init env net = (.ok initialState, 0)) ∧
    (∀ net s, (set_token env net s).result = .ok (s, false) ∧
      (set_token env net s).requests = 0) := by
  rcases h with rfl | rfl <;> exact ⟨fun net => rfl, fun net s => ⟨rfl, rfl⟩⟩

/-- Witness for C5 with the variable absent and a failing network oracle. -/
theorem kabusap_no_credential_witness :
    kabusap_init none (.otherError "connection refused") =
      (.ok initialState, 0) ∧
    (set_token none (.otherError "connection refused") initialState).result =
      .ok (initialState, false) ∧
    (set_token none (.otherError "connection refused") initialState).requests = 0 :=
  ⟨(kabusap_no_credential none (Or.inl rfl)).1 _,
   ((kabusap_no_credential none (Or.inl rfl)).2 _ _).1,
   ((kabusap_no_credential none (Or.inl rfl)).2 _ _).2⟩

/-- C6: with a credential set and the token endpoint answering a JSON object
whose `Token` field is `abc`, construction yields `isEnable = true`, cached
token `abc`, and headers mapping `X-API-KEY` to `abc`. -/
theorem kabusap_token_success (pw : String) (hpw : pw ≠ "")
    (content : List (String × String))
    (hc : content.lookup "Token" = some "abc") :
    kabusap_init (some pw) (.success (some content)) =
      (.ok { api_key := "abc",
             headers := [("Content-Type", "application/json"),
                         ("X-API-KEY", "abc")],
             isEnable := true }, 1) ∧
    ([("Content-Type", "application/json"),
      ("X-API-KEY", "abc")] : List (String × String)).lookup "X-API-KEY" =
      some "abc" := by
  refine ⟨?_, by decide⟩
  simp [kabusap_init, set_token, hpw, hc, initialState]

/-- Witness for C6 at the concrete credential `pw` and the response object
`ResultCode: 0, Token: abc`. -/
theorem kabusap_token_success_witness :
    kabusap_init (some "pw")
        (.success (some [("ResultCode", "0"), ("Token", "abc")])) =
      (.ok { api_key := "abc",
             headers := [("Content-Type", "application/json"),
                         ("X-API-KEY", "abc")],
             isEnable := true }, 1) :=
  (kabusap_token_success "pw" (by decide) [("ResultCode", "0"), ("Token", "abc")]
      (by decide)).1

/-- C7: `_refresh_token_if_needed` re-invokes the token fetch exactly when
the cached token is empty; with a non-empty cached token it returns `True`
immediately, leaves the whole state unchanged and issues no outbound
request. -/
theorem kabusap_refresh (env : Option String) (net : UrlopenOutcome)
    (s : KabusapState) :
    (s.api_key ≠ "" →
      refresh_token_if_needed env net s =
        { result := .ok (s, true), requests := 0, logs := [] }) ∧
    (s.api_key = "" →
      (refresh_token_if_needed env net s).result = (set_token env net s).result ∧
      (refresh_token_if_needed env net s).requests =
        (set_token env net s).requests) := by
  constructor
  · intro h; simp [refresh_token_if_needed, h]
  · intro h; simp [refresh_token_if_needed, h]

/-- Witness for C7: a state holding the token `tok` refreshes to an immediate
`True` with no request, and a state with an empty token re-runs the fetch. -/
theorem kabusap_refresh_witness :
    refresh_token_if_needed (some "pw") (.otherError "down")
        { api_key := "tok", headers := [], isEnable := true } =
      { result := .ok ({ api_key := "tok", headers := [], isEnable := true },
          true), requests := 0, logs := [] } ∧
    (refresh_token_if_needed (some "pw") (.otherError "down")
        initialState).result =
      (set_token (some "pw") (.otherError "down") initialState).result :=
  ⟨(kabusap_refresh (some "pw") (.otherError "down")
      { api_key := "tok", headers := [], isEnable := true }).1 (by decide),
   ((kabusap_refresh (some "pw") (.otherError "down") initialState).2 rfl).1⟩

/-- C8 counterexample: a non-2xx HTTP response whose error body is not valid
JSON makes `_set_token` propagate an exception instead of returning `False`:
`json.loads` raises inside the `except urllib.error.HTTPError` handler. -/
theorem kabusap_set_token_propagates :
    (set_token (some "pw") (.httpError 401 none) initialState).result =
      .exc "json.decoder.JSONDecodeError" ∧
    ∀ (s : KabusapState) (b : Bool),
      (set_token (some "pw") (.httpError 401 none) initialState).result ≠
        PyResult.ok (s, b) := by
  refine ⟨rfl, fun s b hc => ?_⟩
  rw [show (set_token (some "pw") (.httpError 401 none) initialState).result =
      PyResult.exc "json.decoder.JSONDecodeError" from rfl] at hc
  exact PyResult.noConfusion hc

/-- C8 amended: network errors, malformed 2xx bodies, 2xx JSON bodies without
a `Token` field, and non-2xx responses whose error body parses as JSON are
all caught, logged and converted to the boolean `False`; but a non-2xx
response whose error body is not valid JSON propagates a JSON decoding
exception to the caller. -/
theorem kabusap_set_token_error_mapping (pw : String) (hpw : pw ≠ "")
    (s : KabusapState) :
    (∀ msg, (set_token (some pw) (.otherError msg) s).result = .ok (s, false) ∧
      (set_token (some pw) (.otherError msg) s).logs ≠ []) ∧
    (∀ code err,
      (set_token (some pw) (.httpError code (some err)) s).result =
        .ok (s, false) ∧
      (set_token (some pw) (.httpError code (some err)) s).logs ≠ []) ∧
    ((set_token (some pw) (.success none) s).result = .ok (s, false) ∧
      (set_token (some pw) (.success none) s).logs ≠ []) ∧
    (∀ content, content.lookup "Token" = none →
      (set_token (some pw) (.success (some content)) s).result =
        .ok (s, false)) ∧
    (∀ code, (set_token (some pw) (.httpError code none) s).result =
      .exc "json.decoder.JSONDecodeError") := by
  refine ⟨fun msg => ⟨?_, ?_⟩, fun code err => ⟨?_, ?_⟩, ⟨?_, ?_⟩,
      fun content hc => ?_, fun code => ?_⟩ <;>
    simp [set_token, hpw, *]

/-- Witness for C8 (amended) at the concrete credential `pw` and a network
error. -/
theorem kabusap_set_token_error_mapping_witness :
    (set_token (some "pw") (.otherError "connection refused")
        initialState).result = .ok (initialState, false) ∧
    (set_token (some "pw") (.httpError 503 none) initialState).result =
      .exc "json.decoder.JSONDecodeError" :=
  ⟨((kabusap_set_token_error_mapping "pw" (by decide) initialState).1
      "connection refused").1,
   (kabusap_set_token_error_mapping "pw" (by decide) initialState).2.2.2.2 503⟩

end Kabusap
